import Mathlib

/-!
Verification development for the MPC wallet service repository.

Shallow embedding of `src/mpc_wallet_service/client.py` (class
`CDPAgentkitClient`) and of the relevant handlers of `src/api/main.py`.

Modelling conventions:
* the single seed file at the fixed path `my_wallet_seed.json` is the only
  persisted state; its contents are `FS := Option String` (`none` = absent);
* the vendor SDK (`cdp.Wallet`, `cdp.Cdp`) is an opaque capability: a
  `Provider` structure of oracles, one per SDK call the code performs;
* Python exceptions are `PyErr`; `raise Exception(f"Failed to X: {str(e)}")`
  is the `rewrap` combinator applied to the body of the `try` block;
* observable side effects (provider calls, seed-file writes) are recorded in
  an event trace, so frame conditions ("no write", "no submission") are
  equalities on traces.
-/

namespace MPCWallet

/-- An address object as returned by `wallet.create_address()`; the code only
reads its `address_id` field (client.py lines 52-56, 147-151). -/
structure Address where
  address_id : String
deriving DecidableEq

/-- A wallet object as returned by `Wallet.create` / `Wallet.load_seed`; the
code only reads `id` and `network_id` (client.py). -/
structure Wallet where
  id : String
  network_id : String
deriving DecidableEq

/-- Opaque provider-defined snapshot returned by `wallet.export_data()`. -/
abbrev ExportData := List (String × String)

/-- Opaque balances mapping returned by `wallet.balances()`. -/
abbrev Balances := List (String × String)

/-- Opaque confirmation payload returned by `Wallet.create_webhook`. -/
abbrev WebhookData := List (String × String)

/-- Opaque transfer confirmation, `response.json()` in client.py line 241. -/
abbrev TxData := List (String × String)

/-- A Python exception. `attributeError a` models the `AttributeError` raised
by an attribute lookup `self.a` when `a` was never assigned; `httpException`
models FastAPI/Starlette `HTTPException(status_code, detail)`; `exception m`
models a plain `Exception(m)`. -/
inductive PyErr where
  | attributeError (attr : String)
  | httpException (status : Nat) (detail : String)
  | exception (msg : String)
deriving DecidableEq

/-- Python `str(e)` on an exception: for `AttributeError` CPython produces
the standard message; for Starlette's `HTTPException` the `__str__` is
`f"{status_code}: {detail}"`; for `Exception(m)` it is `m`. -/
def PyErr.str : PyErr → String
  | .attributeError a => "'CDPAgentkitClient' object has no attribute '" ++ a ++ "'"
  | .httpException s d => toString s ++ ": " ++ d
  | .exception m => m

/-- The transfer payload dict built at client.py lines 228-234. The source
dict key for the recipient is `"to"`, a Lean keyword, rendered `toAddr`. -/
structure TransferPayload where
  wallet_id : String
  toAddr : String
  amount : String
  asset : String
  transfer_type : String
deriving DecidableEq

/-- Observable side effects: calls submitted to the provider SDK and writes
to the seed file. -/
inductive Event where
  | providerCreate (network_id : String)
  | providerCreateAddress (wallet_id : String)
  | providerLoadSeed (blob : String)
  | providerExportData (wallet_id : String)
  | providerBalances (wallet_id : String)
  | providerCreateWebhook (wallet_id : String) (callback_url : String)
  | providerTransfer (payload : TransferPayload)
  | fileWrite (blob : String)
deriving DecidableEq

/-- Whether an event is a write to the seed file. -/
def Event.isFileWrite : Event → Bool
  | .fileWrite _ => true
  | _ => false

/-- Contents of the seed file at the fixed path (`none` = file absent). -/
abbrev FS := Option String

/-- Outcome of one operation: its Python result (value or raised exception),
the seed-file contents afterwards, and the trace of observable effects. -/
structure Out (α : Type) where
  result : Except PyErr α
  fs : FS
  events : List Event

/-- The opaque vendor SDK capability: one oracle per SDK call the code makes.
`save_seed` returns the encrypted blob that `wallet.save_seed(path,
encrypt=True)` writes to the file; `load_seed` takes the blob and the
passphrase; `request` takes the payload, the headers string and the timeout
used at client.py line 239; `get_api_base` models `Cdp.get_api_base()`,
which client.py line 227 assumes to return the base URL. -/
structure Provider where
  create : String → Except PyErr Wallet
  create_address : Wallet → Except PyErr Address
  save_seed : Wallet → Except PyErr String
  load_seed : String → String → Except PyErr Wallet
  export_data : Wallet → Except PyErr ExportData
  balances : Wallet → Except PyErr Balances
  create_webhook : String → String → List String → Except PyErr WebhookData
  get_api_base : String
  request : TransferPayload → String → Nat → Except PyErr TxData

/-- The attributes `__init__` assigns on `CDPAgentkitClient` (client.py lines
30-32): `api_key_name`, `api_key_private` and the constant
`seed_storage_path`. No other instance attribute is ever assigned. -/
structure CDPAgentkitClient where
  api_key_name : String
  api_key_private : String
deriving DecidableEq

/-- Constant seed-file path set by `__init__` (client.py line 32). -/
def seed_storage_path : String := "my_wallet_seed.json"

/-- Seed-file path hard-coded in the `/wallet/import` handler (main.py line
87); it is the same file as the client's `seed_storage_path`, so one `FS`
models both. -/
def api_seed_file_path : String := "my_wallet_seed.json"

/-- The class body of `CDPAgentkitClient` defines no method or attribute
named `_get_headers` (its methods are `__init__`, `create_wallet`,
`import_wallet`, `load_wallet`, `create_address`, `export_wallet`,
`retrieve_balances`, `create_webhook`, `execute_gasless_transaction`), so the
lookup `self._get_headers` at client.py line 236 finds nothing: `none`. -/
def client_get_headers : Option (String → String → TransferPayload → String) := none

/-- Likewise no assignment to `self.timeout` exists anywhere in the class, so
the lookup at client.py line 239 finds nothing: `none`. -/
def client_timeout : Option Nat := none

/-- The `except Exception as e: raise Exception(f"{pre}: {str(e)}")` pattern
wrapped around every method body in client.py. -/
def rewrap (pre : String) (o : Out α) : Out α :=
  match o.result with
  | .ok a => ⟨.ok a, o.fs, o.events⟩
  | .error e => ⟨.error (.exception (pre ++ ": " ++ e.str)), o.fs, o.events⟩

/-- The `except Exception as e: raise HTTPException(status_code=400,
detail=str(e))` handler wrapped around every endpoint body in main.py. -/
def fastapi_catch (o : Out α) : Out α :=
  match o.result with
  | .ok a => ⟨.ok a, o.fs, o.events⟩
  | .error e => ⟨.error (.httpException 400 e.str), o.fs, o.events⟩

/-- Body of the `try` in `load_wallet` (client.py lines 114-124): if the seed
file does not exist raise `Exception("Wallet seed file not found.")`, else
`Wallet.load_seed(file_path, passphrase=self.api_key_private)`. -/
def load_wallet_try (p : Provider) (c : CDPAgentkitClient) (fs : FS) : Out Wallet :=
  match fs with
  | none => ⟨.error (.exception "Wallet seed file not found."), none, []⟩
  | some blob => ⟨p.load_seed blob c.api_key_private, some blob, [.providerLoadSeed blob]⟩

/-- `CDPAgentkitClient.load_wallet` (client.py lines 107-128). The
`return wallet` path never yields `None`, so the callers' `if not wallet`
guards are dead code and are not modelled. -/
def load_wallet (p : Provider) (c : CDPAgentkitClient) (fs : FS) : Out Wallet :=
  rewrap "Failed to load wallet" (load_wallet_try p c fs)

/-- The `address_data` dict of client.py lines 52-56 and 147-151: note it
takes `wallet_id` and `network_id` from the wallet, not from the address. -/
structure AddressData where
  address_id : String
  wallet_id : String
  network_id : String
deriving DecidableEq

/-- The `wallet_data` dict returned by `create_wallet` (client.py lines
59-63). -/
structure WalletData where
  wallet_id : String
  network_id : String
  address : AddressData
deriving DecidableEq

/-- Body of the `try` in `create_wallet` (client.py lines 47-65):
`Wallet.create(network_id)`, then `wallet.create_address()`, build
`address_data`, then `wallet.save_seed(self.seed_storage_path,
encrypt=True)`, then build and return the `wallet_data` dict. -/
def create_wallet_try (p : Provider) (fs : FS) (network_id : String) : Out WalletData :=
  match p.create network_id with
  | .error e => ⟨.error e, fs, [.providerCreate network_id]⟩
  | .ok w =>
    match p.create_address w with
    | .error e => ⟨.error e, fs, [.providerCreate network_id, .providerCreateAddress w.id]⟩
    | .ok a =>
      let address_data : AddressData := ⟨a.address_id, w.id, w.network_id⟩
      match p.save_seed w with
      | .error e =>
        ⟨.error e, fs, [.providerCreate network_id, .providerCreateAddress w.id]⟩
      | .ok blob =>
        ⟨.ok ⟨w.id, w.network_id, address_data⟩, some blob,
          [.providerCreate network_id, .providerCreateAddress w.id, .fileWrite blob]⟩

/-- `CDPAgentkitClient.create_wallet` (client.py lines 39-68). -/
def create_wallet (p : Provider) (fs : FS) (network_id : String) : Out WalletData :=
  rewrap "Failed to create wallet and address" (create_wallet_try p fs network_id)

/-- A JSON-object request payload, modelled as a key/value list; the
membership test `"encrypted_seed" not in import_data` is `lookup`. -/
abbrev Payload := List (String × String)

/-- Body of the `try` in `import_wallet` (client.py lines 84-100): validate
the `encrypted_seed` key, write its value to the seed file, call
`self.load_wallet()`, and return `wallet.export_data()`. The raised
exception from a failed `load_wallet` propagates here; the `if not wallet`
branch is dead code (`load_wallet` never returns `None`). -/
def import_wallet_try (p : Provider) (c : CDPAgentkitClient) (fs : FS)
    (import_data : Payload) : Out ExportData :=
  match import_data.lookup "encrypted_seed" with
  | none => ⟨.error (.exception "Missing 'encrypted_seed' in payload."), fs, []⟩
  | some encrypted_seed =>
    match load_wallet p c (some encrypted_seed) with
    | ⟨.error e, fs', ev⟩ => ⟨.error e, fs', .fileWrite encrypted_seed :: ev⟩
    | ⟨.ok w, fs', ev⟩ =>
      ⟨p.export_data w, fs',
        .fileWrite encrypted_seed :: ev ++ [.providerExportData w.id]⟩

/-- `CDPAgentkitClient.import_wallet` (client.py lines 70-104). -/
def import_wallet (p : Provider) (c : CDPAgentkitClient) (fs : FS)
    (import_data : Payload) : Out ExportData :=
  rewrap "Failed to import wallet" (import_wallet_try p c fs import_data)

/-- Body of the `try` in `create_address` (client.py lines 140-153):
`self.load_wallet()`, then `wallet.create_address()`, then build
`address_data` from the new address and the wallet. -/
def create_address_try (p : Provider) (c : CDPAgentkitClient) (fs : FS) :
    Out AddressData :=
  match load_wallet p c fs with
  | ⟨.error e, fs', ev⟩ => ⟨.error e, fs', ev⟩
  | ⟨.ok w, fs', ev⟩ =>
    match p.create_address w with
    | .error e => ⟨.error e, fs', ev ++ [.providerCreateAddress w.id]⟩
    | .ok a =>
      ⟨.ok ⟨a.address_id, w.id, w.network_id⟩, fs', ev ++ [.providerCreateAddress w.id]⟩

/-- `CDPAgentkitClient.create_address` (client.py lines 133-156). -/
def create_address (p : Provider) (c : CDPAgentkitClient) (fs : FS) : Out AddressData :=
  rewrap "Failed to create new address" (create_address_try p c fs)

/-- Body of the `try` in `export_wallet` (client.py lines 165-171):
`self.load_wallet()`, then `wallet.export_data()`. -/
def export_wallet_try (p : Provider) (c : CDPAgentkitClient) (fs : FS) : Out ExportData :=
  match load_wallet p c fs with
  | ⟨.error e, fs', ev⟩ => ⟨.error e, fs', ev⟩
  | ⟨.ok w, fs', ev⟩ => ⟨p.export_data w, fs', ev ++ [.providerExportData w.id]⟩

/-- `CDPAgentkitClient.export_wallet` (client.py lines 158-174). -/
def export_wallet (p : Provider) (c : CDPAgentkitClient) (fs : FS) : Out ExportData :=
  rewrap "Failed to export wallet" (export_wallet_try p c fs)

/-- Body of the `try` in `retrieve_balances` (client.py lines 183-189):
`self.load_wallet()`, then `wallet.balances()`. -/
def retrieve_balances_try (p : Provider) (c : CDPAgentkitClient) (fs : FS) : Out Balances :=
  match load_wallet p c fs with
  | ⟨.error e, fs', ev⟩ => ⟨.error e, fs', ev⟩
  | ⟨.ok w, fs', ev⟩ => ⟨p.balances w, fs', ev ++ [.providerBalances w.id]⟩

/-- `CDPAgentkitClient.retrieve_balances` (client.py lines 176-192). -/
def retrieve_balances (p : Provider) (c : CDPAgentkitClient) (fs : FS) : Out Balances :=
  rewrap "Failed to retrieve balances" (retrieve_balances_try p c fs)

/-- Body of the `try` in `create_webhook` (client.py lines 202-209):
`self.load_wallet()`, then `Wallet.create_webhook(wallet.id, callback_url,
event_types=["TRANSACTION_RECEIVED"])`. -/
def create_webhook_try (p : Provider) (c : CDPAgentkitClient) (fs : FS)
    (callback_url : String) : Out WebhookData :=
  match load_wallet p c fs with
  | ⟨.error e, fs', ev⟩ => ⟨.error e, fs', ev⟩
  | ⟨.ok w, fs', ev⟩ =>
    ⟨p.create_webhook w.id callback_url ["TRANSACTION_RECEIVED"], fs',
      ev ++ [.providerCreateWebhook w.id callback_url]⟩

/-- `CDPAgentkitClient.create_webhook` (client.py lines 194-212). -/
def create_webhook (p : Provider) (c : CDPAgentkitClient) (fs : FS)
    (callback_url : String) : Out WebhookData :=
  rewrap "Failed to create webhook" (create_webhook_try p c fs callback_url)

/-- The literal `request_path` of client.py line 226. -/
def requestPath : String := "/v2/transfers"

/-- The payload dict of client.py lines 228-234: `transfer_type` is the
literal `"GASLESS"`, the other fields are the arguments as given. -/
def mkTransferPayload (wallet_id to_address amount asset : String) : TransferPayload :=
  ⟨wallet_id, to_address, amount, asset, "GASLESS"⟩

/-- The Python default for the `asset` parameter of
`execute_gasless_transaction` (client.py line 214). -/
def defaultAsset : String := "USDC"

/-- `CDPAgentkitClient.execute_gasless_transaction` (client.py lines
214-246). Lines 226-236 run before the `try` block: build the payload and
body, then evaluate `self._get_headers` — an attribute that does not exist
(`client_get_headers = none`), so an `AttributeError` is raised there,
outside the method's own `except` handler. The `some` branch models the
counterfactual continuation (lines 237-246): inside the `try`,
`self.timeout` is also a missing attribute, and `Cdp.request` would submit
the payload. -/
def execute_gasless_transaction (p : Provider) (fs : FS)
    (wallet_id to_address amount asset : String) : Out TxData :=
  let payload := mkTransferPayload wallet_id to_address amount asset
  let _url := p.get_api_base ++ requestPath
  match client_get_headers with
  | none => ⟨.error (.attributeError "_get_headers"), fs, []⟩
  | some gh =>
    let headers := gh "POST" requestPath payload
    rewrap "Failed to execute gasless transaction"
      (match client_timeout with
        | none => ⟨.error (.attributeError "timeout"), fs, []⟩
        | some t => ⟨p.request payload headers t, fs, [.providerTransfer payload]⟩)

/-- Calling `execute_gasless_transaction` without the `asset` argument: the
Python default parameter `asset="USDC"` fills it in. -/
def execute_gasless_transaction_default (p : Provider) (fs : FS)
    (wallet_id to_address amount : String) : Out TxData :=
  execute_gasless_transaction p fs wallet_id to_address amount defaultAsset

/-- The pydantic request model `GaslessTransactionRequest` (main.py lines
40-44): `asset: Optional[str] = "USDC"`, so a payload that omits `asset`
parses with `asset = some "USDC"`. -/
structure GaslessTransactionRequest where
  wallet_id : String
  to_address : String
  amount : String
  asset : Option String := some "USDC"
deriving DecidableEq

/-- Body of the `try` in the `POST /wallet/import` handler (main.py lines
75-95): validate the `encrypted_seed` key — raising `HTTPException(422,
...)` INSIDE the `try` — else write the seed string to
`my_wallet_seed.json`, call `cdp_client.load_wallet()` and return the loaded
wallet object itself (no `export_data` call, and `cdp_client.import_wallet`
is never invoked). -/
def api_import_wallet_try (p : Provider) (c : CDPAgentkitClient) (fs : FS)
    (body : Payload) : Out Wallet :=
  match body.lookup "encrypted_seed" with
  | none => ⟨.error (.httpException 422 "Missing 'encrypted_seed' field in payload"), fs, []⟩
  | some encrypted_seed =>
    match load_wallet p c (some encrypted_seed) with
    | ⟨r, fs', ev⟩ => ⟨r, fs', .fileWrite encrypted_seed :: ev⟩

/-- The `POST /wallet/import` handler (main.py lines 70-99): the
`except Exception` clause catches everything raised in the `try` —
including the 422 `HTTPException`, which is a subclass of `Exception` — and
re-raises `HTTPException(status_code=400, detail=str(e))`. -/
def api_import_wallet (p : Provider) (c : CDPAgentkitClient) (fs : FS)
    (body : Payload) : Out Wallet :=
  fastapi_catch (api_import_wallet_try p c fs body)

/-! Concrete fixtures used to instantiate the theorems below. -/

/-- A concrete wallet object. -/
def wTest : Wallet := ⟨"wallet-1", "base-sepolia"⟩

/-- A concrete address object. -/
def aTest : Address := ⟨"addr-1"⟩

/-- A concrete export snapshot. -/
def snapTest : ExportData := [("wallet_id", "wallet-1"), ("seed", "seed-data")]

/-- A provider on which every SDK call succeeds. -/
def provOk : Provider where
  create := fun _ => .ok wTest
  create_address := fun _ => .ok aTest
  save_seed := fun _ => .ok "blob-1"
  load_seed := fun _ _ => .ok wTest
  export_data := fun _ => .ok snapTest
  balances := fun _ => .ok [("USDC", "5")]
  create_webhook := fun _ _ _ => .ok [("webhook_id", "wh-1")]
  get_api_base := "https://api.cdp.coinbase.com"
  request := fun _ _ _ => .ok [("status", "complete")]

/-- A provider on which persisting the seed (`wallet.save_seed`) fails. -/
def provSaveFail : Provider :=
  { provOk with save_seed := fun _ => .error (.exception "disk full") }

/-- A provider on which decrypting the stored seed (`Wallet.load_seed`)
fails. -/
def provLoadFail : Provider :=
  { provOk with load_seed := fun _ _ => .error (.exception "Malformed encrypted seed") }

/-- A concrete client instance. -/
def cTest : CDPAgentkitClient := ⟨"key-name", "key-secret"⟩

/-! Helper lemmas about `load_wallet`. -/

/-- With no seed file, `load_wallet` raises the wrapped not-found error and
touches nothing. -/
theorem load_wallet_none_eq (p : Provider) (c : CDPAgentkitClient) :
    load_wallet p c none
      = ⟨.error (.exception "Failed to load wallet: Wallet seed file not found."), none, []⟩ :=
  rfl

/-- With a seed file whose blob decrypts, `load_wallet` returns the
rehydrated wallet after one `load_seed` call. -/
theorem load_wallet_some_ok (p : Provider) (c : CDPAgentkitClient) (blob : String)
    (w : Wallet) (h : p.load_seed blob c.api_key_private = .ok w) :
    load_wallet p c (some blob) = ⟨.ok w, some blob, [.providerLoadSeed blob]⟩ := by
  simp [load_wallet, load_wallet_try, rewrap, h]

/-- With a seed file whose blob fails to decrypt, `load_wallet` raises the
wrapped decryption error. -/
theorem load_wallet_some_err (p : Provider) (c : CDPAgentkitClient) (blob : String)
    (e : PyErr) (h : p.load_seed blob c.api_key_private = .error e) :
    load_wallet p c (some blob)
      = ⟨.error (.exception ("Failed to load wallet: " ++ e.str)), some blob,
          [.providerLoadSeed blob]⟩ := by
  simp [load_wallet, load_wallet_try, rewrap, h]

/-- C1: for every argument tuple, `execute_gasless_transaction` fails with
the `AttributeError` for `_get_headers` (an attribute never assigned on
`CDPAgentkitClient`), before any transfer request is submitted to the
provider (the event trace is empty) and without touching the seed file; the
raised error is the bare `AttributeError`, not the method's uniform
`"Failed to execute gasless transaction: ..."` wrapper, because the
`self._get_headers` access sits outside the method's `try` block. -/
theorem C1_gasless_raises_before_any_submission (p : Provider) (fs : FS)
    (wallet_id to_address amount asset : String) :
    (execute_gasless_transaction p fs wallet_id to_address amount asset).result
        = .error (.attributeError "_get_headers")
    ∧ (execute_gasless_transaction p fs wallet_id to_address amount asset).events = []
    ∧ (execute_gasless_transaction p fs wallet_id to_address amount asset).fs = fs :=
  ⟨rfl, rfl, rfl⟩

/-- C2: evaluating the code at the failing input. A `POST /wallet/import`
body without `encrypted_seed` is rejected with HTTP status 400 — the 422
`HTTPException` raised inside the handler's `try` is caught by its blanket
`except Exception` and re-raised as 400 — which is the same status the
handler uses for operational failures (fourth conjunct: a decryption
failure also surfaces as 400). No seed-file write happens in either layer's
validation failure, and the client-level `import_wallet` wraps the missing
field in its uniform operational error with no write. -/
theorem C2_import_missing_seed_status_not_distinct :
    (api_import_wallet provOk cTest none [("foo", "bar")]).result
        = .error (.httpException 400 "422: Missing 'encrypted_seed' field in payload")
    ∧ (api_import_wallet provOk cTest none [("foo", "bar")]).fs = none
    ∧ (api_import_wallet provOk cTest none [("foo", "bar")]).events = []
    ∧ (api_import_wallet provLoadFail cTest none [("encrypted_seed", "blob-2")]).result
        = .error (.httpException 400 "Failed to load wallet: Malformed encrypted seed")
    ∧ (import_wallet provOk cTest none [("foo", "bar")]).result
        = .error (.exception "Failed to import wallet: Missing 'encrypted_seed' in payload.")
    ∧ (import_wallet provOk cTest none [("foo", "bar")]).fs = none
    ∧ (import_wallet provOk cTest none [("foo", "bar")]).events = [] :=
  ⟨rfl, rfl, rfl, rfl, rfl, rfl, rfl⟩

/-- C3 counterexample: on a successful import through the `POST
/wallet/import` endpoint, the value returned to the caller is the raw
loaded wallet object (`wTest`), and the event trace shows `export_data` is
never called — so the endpoint does not return the exported snapshot
(which `provOk.export_data` would have produced as `snapTest`). -/
theorem C3_endpoint_returns_raw_session :
    (api_import_wallet provOk cTest none [("encrypted_seed", "B")]).result = .ok wTest
    ∧ (api_import_wallet provOk cTest none [("encrypted_seed", "B")]).events
        = [.fileWrite "B", .providerLoadSeed "B"]
    ∧ provOk.export_data wTest = .ok snapTest :=
  ⟨rfl, rfl, rfl⟩

/-- C3 amended: the client-level `import_wallet`, on a successful import,
returns the exported snapshot (`export_data`) of the newly loaded wallet. -/
theorem C3_client_import_returns_snapshot (p : Provider) (c : CDPAgentkitClient)
    (fs : FS) (import_data : Payload) (seed : String) (w : Wallet) (ed : ExportData)
    (hseed : import_data.lookup "encrypted_seed" = some seed)
    (hload : p.load_seed seed c.api_key_private = .ok w)
    (hexp : p.export_data w = .ok ed) :
    (import_wallet p c fs import_data).result = .ok ed := by
  simp [import_wallet, import_wallet_try, hseed, load_wallet_some_ok p c seed w hload, rewrap, hexp]

/-- C3 witness: concrete successful client-level import returning the
snapshot. -/
theorem C3_client_import_returns_snapshot_witness :
    (import_wallet provOk cTest none [("encrypted_seed", "B")]).result = .ok snapTest :=
  C3_client_import_returns_snapshot provOk cTest none [("encrypted_seed", "B")] "B"
    wTest snapTest rfl rfl rfl

/-- C4 counterexample: with provider-side creation and address generation
succeeding but seed persistence failing, `create_wallet` raises the wrapped
error and returns nothing — the created session is NOT returned to the
caller (the result is an error, not a wallet record), refuting the claim
that the session is still returned; the seed file is untouched and the
provider-side wallet and address were already created. -/
theorem C4_persist_failure_returns_error :
    (create_wallet provSaveFail none "base-sepolia").result
        = .error (.exception "Failed to create wallet and address: disk full")
    ∧ (create_wallet provSaveFail none "base-sepolia").fs = none
    ∧ (create_wallet provSaveFail none "base-sepolia").events
        = [.providerCreate "base-sepolia", .providerCreateAddress "wallet-1"] :=
  ⟨rfl, rfl, rfl⟩

/-- C4 amended: if provider-side wallet creation and address generation
succeed but persisting the encrypted seed fails, the whole operation fails
with the wrapped error, the session record is not returned, the seed file
is unchanged, and the provider-side wallet remains created (orphaned). -/
theorem C4_persist_failure_aborts (p : Provider) (fs : FS) (network_id : String)
    (w : Wallet) (a : Address) (e : PyErr)
    (h1 : p.create network_id = .ok w)
    (h2 : p.create_address w = .ok a)
    (h3 : p.save_seed w = .error e) :
    (create_wallet p fs network_id).result
        = .error (.exception ("Failed to create wallet and address: " ++ e.str))
    ∧ (create_wallet p fs network_id).fs = fs
    ∧ (create_wallet p fs network_id).events
        = [.providerCreate network_id, .providerCreateAddress w.id] := by
  simp [create_wallet, create_wallet_try, rewrap, h1, h2, h3]

/-- C4 witness: the amended statement at a concrete provider whose
`save_seed` fails with "disk full". -/
theorem C4_persist_failure_aborts_witness :
    (create_wallet provSaveFail (some "old-blob") "base-sepolia").result
        = .error (.exception "Failed to create wallet and address: disk full")
    ∧ (create_wallet provSaveFail (some "old-blob") "base-sepolia").fs = some "old-blob"
    ∧ (create_wallet provSaveFail (some "old-blob") "base-sepolia").events
        = [.providerCreate "base-sepolia", .providerCreateAddress "wallet-1"] :=
  C4_persist_failure_aborts provSaveFail (some "old-blob") "base-sepolia" wTest aTest
    (.exception "disk full") rfl rfl rfl

/-- C5: `load_wallet` fails with the wrapped not-found error when the seed
file is absent, with the wrapped decryption error when the blob cannot be
decrypted with the held passphrase, and on success returns the rehydrated
session; and each of `export_wallet`, `retrieve_balances`,
`create_address`, `create_webhook`, invoked with no seed file, fails with
the (doubly wrapped) not-found error, leaves the file system unchanged and
performs no provider call (no partial side effects). -/
theorem C5_load_wallet_and_missing_wallet_precondition (p : Provider)
    (c : CDPAgentkitClient) :
    ((load_wallet p c none).result
        = .error (.exception "Failed to load wallet: Wallet seed file not found.")
      ∧ (load_wallet p c none).fs = none ∧ (load_wallet p c none).events = [])
    ∧ (∀ blob e, p.load_seed blob c.api_key_private = .error e →
        (load_wallet p c (some blob)).result
            = .error (.exception ("Failed to load wallet: " ++ e.str)))
    ∧ (∀ blob w, p.load_seed blob c.api_key_private = .ok w →
        (load_wallet p c (some blob)).result = .ok w)
    ∧ ((export_wallet p c none).result
        = .error (.exception
            "Failed to export wallet: Failed to load wallet: Wallet seed file not found.")
      ∧ (export_wallet p c none).fs = none ∧ (export_wallet p c none).events = [])
    ∧ ((retrieve_balances p c none).result
        = .error (.exception
            "Failed to retrieve balances: Failed to load wallet: Wallet seed file not found.")
      ∧ (retrieve_balances p c none).fs = none ∧ (retrieve_balances p c none).events = [])
    ∧ ((create_address p c none).result
        = .error (.exception
            "Failed to create new address: Failed to load wallet: Wallet seed file not found.")
      ∧ (create_address p c none).fs = none ∧ (create_address p c none).events = [])
    ∧ (∀ url, (create_webhook p c none url).result
        = .error (.exception
            "Failed to create webhook: Failed to load wallet: Wallet seed file not found.")
      ∧ (create_webhook p c none url).fs = none
      ∧ (create_webhook p c none url).events = []) := by
  refine ⟨⟨rfl, rfl, rfl⟩, ?_, ?_, ⟨rfl, rfl, rfl⟩, ⟨rfl, rfl, rfl⟩, ⟨rfl, rfl, rfl⟩,
    fun url => ⟨rfl, rfl, rfl⟩⟩
  · intro blob e h
    simp [load_wallet_some_err p c blob e h]
  · intro blob w h
    simp [load_wallet_some_ok p c blob w h]

/-- C5 witness: the statement instantiated at concrete providers — the
decryption-failure conjunct at `provLoadFail`, the success conjunct at
`provOk`, the rest at `provOk` with no seed file. -/
theorem C5_load_wallet_witness :
    (load_wallet provOk cTest none).result
        = .error (.exception "Failed to load wallet: Wallet seed file not found.")
    ∧ (load_wallet provLoadFail cTest (some "B")).result
        = .error (.exception ("Failed to load wallet: "
            ++ PyErr.str (.exception "Malformed encrypted seed")))
    ∧ (load_wallet provOk cTest (some "B")).result = .ok wTest
    ∧ (export_wallet provOk cTest none).result
        = .error (.exception
            "Failed to export wallet: Failed to load wallet: Wallet seed file not found.")
    ∧ (create_webhook provOk cTest none "https://cb.example").events = [] :=
  ⟨(C5_load_wallet_and_missing_wallet_precondition provOk cTest).1.1,
   (C5_load_wallet_and_missing_wallet_precondition provLoadFail cTest).2.1 "B"
      (.exception "Malformed encrypted seed") rfl,
   (C5_load_wallet_and_missing_wallet_precondition provOk cTest).2.2.1 "B" wTest rfl,
   (C5_load_wallet_and_missing_wallet_precondition provOk cTest).2.2.2.1.1,
   ((C5_load_wallet_and_missing_wallet_precondition provOk cTest).2.2.2.2.2.2
      "https://cb.example").2.2⟩

/-- C6: `import_wallet` unconditionally overwrites the seed file with the
supplied blob, whatever blob was there before (in particular after a create
that persisted B1); and if decryption of the new blob subsequently fails,
the operation fails but the overwrite stands — the prior blob is not
restored. -/
theorem C6_import_overwrites_unconditionally (p : Provider) (c : CDPAgentkitClient)
    (prior : FS) (import_data : Payload) (B2 : String)
    (hseed : import_data.lookup "encrypted_seed" = some B2) :
    (import_wallet p c prior import_data).fs = some B2
    ∧ (∀ e, p.load_seed B2 c.api_key_private = .error e →
        (import_wallet p c prior import_data).result
            = .error (.exception ("Failed to import wallet: Failed to load wallet: "
                ++ e.str))
        ∧ (import_wallet p c prior import_data).fs = some B2) := by
  constructor
  · cases h : p.load_seed B2 c.api_key_private with
    | error e =>
      simp [import_wallet, import_wallet_try, hseed, load_wallet_some_err p c B2 e h, rewrap]
    | ok w =>
      cases h2 : p.export_data w with
      | error e2 =>
        simp [import_wallet, import_wallet_try, hseed, load_wallet_some_ok p c B2 w h,
          rewrap, h2]
      | ok ed =>
        simp [import_wallet, import_wallet_try, hseed, load_wallet_some_ok p c B2 w h,
          rewrap, h2]
  · intro e h
    constructor
    · simp [import_wallet, import_wallet_try, hseed, load_wallet_some_err p c B2 e h,
        rewrap, PyErr.str]
      rw [← String.append_assoc]
      congr 1
    · simp [import_wallet, import_wallet_try, hseed, load_wallet_some_err p c B2 e h, rewrap]

/-- C6 witness: after a prior persisted blob "B1", importing "B2" through a
provider whose decryption fails leaves exactly "B2" in the seed file and
fails with the doubly wrapped error. -/
theorem C6_import_overwrites_witness :
    (import_wallet provLoadFail cTest (some "B1") [("encrypted_seed", "B2")]).fs = some "B2"
    ∧ (import_wallet provLoadFail cTest (some "B1") [("encrypted_seed", "B2")]).result
        = .error (.exception ("Failed to import wallet: Failed to load wallet: "
            ++ PyErr.str (.exception "Malformed encrypted seed"))) :=
  ⟨(C6_import_overwrites_unconditionally provLoadFail cTest (some "B1")
      [("encrypted_seed", "B2")] "B2" rfl).1,
   ((C6_import_overwrites_unconditionally provLoadFail cTest (some "B1")
      [("encrypted_seed", "B2")] "B2" rfl).2 (.exception "Malformed encrypted seed") rfl).1⟩

/-- C7 counterexample: with a seed file present, `execute_gasless_transaction`
produces an empty event trace — in particular no `providerLoadSeed` event —
so it does not rehydrate the wallet via `load_wallet`, refuting the claim
that every operation other than create and dispatch rehydrates on every
call; it fails on the missing `_get_headers` attribute instead. -/
theorem C7_gasless_never_rehydrates :
    (execute_gasless_transaction provOk (some "blob-1") "wallet-1" "to-addr" "10" "USDC").events
        = []
    ∧ (execute_gasless_transaction provOk (some "blob-1") "wallet-1" "to-addr" "10" "USDC").result
        = .error (.attributeError "_get_headers") :=
  ⟨rfl, rfl⟩

/-- C7 amended: `create_address`, `export_wallet`, `retrieve_balances` and
`create_webhook` each rehydrate from the seed file via `load_wallet` on
every call — the first event of every call is the `load_seed` on the stored
blob — and they leave the file unchanged, so a repeated call performs the
load again (last conjunct); `execute_gasless_transaction` is excluded: it
performs no rehydration at all. -/
theorem export_wallet_some_load_first (p : Provider) (c : CDPAgentkitClient)
    (blob : String) :
    (export_wallet p c (some blob)).events.head? = some (.providerLoadSeed blob)
    ∧ (export_wallet p c (some blob)).fs = some blob := by
  cases h : p.load_seed blob c.api_key_private with
  | error e =>
    simp [export_wallet, export_wallet_try, load_wallet_some_err p c blob e h, rewrap]
  | ok w =>
    cases h2 : p.export_data w <;>
      simp [export_wallet, export_wallet_try, load_wallet_some_ok p c blob w h, rewrap, h2]

theorem retrieve_balances_some_load_first (p : Provider) (c : CDPAgentkitClient)
    (blob : String) :
    (retrieve_balances p c (some blob)).events.head? = some (.providerLoadSeed blob)
    ∧ (retrieve_balances p c (some blob)).fs = some blob := by
  cases h : p.load_seed blob c.api_key_private with
  | error e =>
    simp [retrieve_balances, retrieve_balances_try, load_wallet_some_err p c blob e h, rewrap]
  | ok w =>
    cases h2 : p.balances w <;>
      simp [retrieve_balances, retrieve_balances_try, load_wallet_some_ok p c blob w h,
        rewrap, h2]

theorem create_address_some_load_first (p : Provider) (c : CDPAgentkitClient)
    (blob : String) :
    (create_address p c (some blob)).events.head? = some (.providerLoadSeed blob)
    ∧ (create_address p c (some blob)).fs = some blob := by
  cases h : p.load_seed blob c.api_key_private with
  | error e =>
    simp [create_address, create_address_try, load_wallet_some_err p c blob e h, rewrap]
  | ok w =>
    cases h2 : p.create_address w <;>
      simp [create_address, create_address_try, load_wallet_some_ok p c blob w h, rewrap, h2]

theorem create_webhook_some_load_first (p : Provider) (c : CDPAgentkitClient)
    (blob : String) (callback_url : String) :
    (create_webhook p c (some blob) callback_url).events.head?
        = some (.providerLoadSeed blob)
    ∧ (create_webhook p c (some blob) callback_url).fs = some blob := by
  cases h : p.load_seed blob c.api_key_private with
  | error e =>
    simp [create_webhook, create_webhook_try, load_wallet_some_err p c blob e h, rewrap]
  | ok w =>
    cases h2 : p.create_webhook w.id callback_url ["TRANSACTION_RECEIVED"] <;>
      simp [create_webhook, create_webhook_try, load_wallet_some_ok p c blob w h, rewrap, h2]

theorem C7_rehydrate_on_every_call (p : Provider) (c : CDPAgentkitClient)
    (blob : String) (callback_url : String) :
    (export_wallet p c (some blob)).events.head? = some (.providerLoadSeed blob)
    ∧ (retrieve_balances p c (some blob)).events.head? = some (.providerLoadSeed blob)
    ∧ (create_address p c (some blob)).events.head? = some (.providerLoadSeed blob)
    ∧ (create_webhook p c (some blob) callback_url).events.head?
        = some (.providerLoadSeed blob)
    ∧ (export_wallet p c (some blob)).fs = some blob
    ∧ (export_wallet p c ((export_wallet p c (some blob)).fs)).events.head?
        = some (.providerLoadSeed blob) := by
  refine ⟨(export_wallet_some_load_first p c blob).1,
    (retrieve_balances_some_load_first p c blob).1,
    (create_address_some_load_first p c blob).1,
    (create_webhook_some_load_first p c blob callback_url).1,
    (export_wallet_some_load_first p c blob).2, ?_⟩
  rw [(export_wallet_some_load_first p c blob).2]
  exact (export_wallet_some_load_first p c blob).1

/-- C8: a successful `create_wallet` asks the provider for a wallet on the
given network, then requests exactly one address, then persists the
encrypted seed — in that order, per the event trace — and returns the
record `{wallet_id, network_id, address: {address_id, wallet_id,
network_id}}` built from the created wallet and address. -/
theorem C8_create_wallet_success (p : Provider) (fs : FS) (network_id : String)
    (w : Wallet) (a : Address) (blob : String)
    (h1 : p.create network_id = .ok w)
    (h2 : p.create_address w = .ok a)
    (h3 : p.save_seed w = .ok blob) :
    (create_wallet p fs network_id).result
        = .ok ⟨w.id, w.network_id, ⟨a.address_id, w.id, w.network_id⟩⟩
    ∧ (create_wallet p fs network_id).fs = some blob
    ∧ (create_wallet p fs network_id).events
        = [.providerCreate network_id, .providerCreateAddress w.id, .fileWrite blob] := by
  simp [create_wallet, create_wallet_try, rewrap, h1, h2, h3]

/-- C8 witness: the success shape at the all-succeeding provider. -/
theorem C8_create_wallet_success_witness :
    (create_wallet provOk none "base-sepolia").result
        = .ok ⟨"wallet-1", "base-sepolia", ⟨"addr-1", "wallet-1", "base-sepolia"⟩⟩
    ∧ (create_wallet provOk none "base-sepolia").fs = some "blob-1"
    ∧ (create_wallet provOk none "base-sepolia").events
        = [.providerCreate "base-sepolia", .providerCreateAddress "wallet-1",
            .fileWrite "blob-1"] :=
  C8_create_wallet_success provOk none "base-sepolia" wTest aTest "blob-1" rfl rfl rfl

/-- C9: `create_address` never writes to the seed file — the persisted blob
is identical before and after the call, and the event trace contains no
file write — whether the call succeeds or fails. -/
theorem C9_create_address_never_writes_seed (p : Provider) (c : CDPAgentkitClient)
    (fs : FS) :
    (create_address p c fs).fs = fs
    ∧ ((create_address p c fs).events.all fun e => !e.isFileWrite) = true := by
  cases fs with
  | none => exact ⟨rfl, rfl⟩
  | some blob =>
    cases h : p.load_seed blob c.api_key_private with
    | error e =>
      have hl := load_wallet_some_err p c blob e h
      constructor <;> simp [create_address, create_address_try, hl, rewrap, Event.isFileWrite]
    | ok w =>
      have hl := load_wallet_some_ok p c blob w h
      cases h2 : p.create_address w with
      | error e2 =>
        constructor <;>
          simp [create_address, create_address_try, hl, rewrap, h2, Event.isFileWrite]
      | ok a =>
        constructor <;>
          simp [create_address, create_address_try, hl, rewrap, h2, Event.isFileWrite]

/-- C10: the transfer payload fixes `transfer_type` to `"GASLESS"`, takes
the caller's `wallet_id` as-is, and the `asset` defaults to `"USDC"` both
at the Python parameter default of `execute_gasless_transaction` and in the
pydantic request model; and `execute_gasless_transaction` never consults
the locally persisted session — its result and events are independent of
the seed-file contents (no cross-check of `wallet_id`). -/
theorem C10_transfer_request_shape (p : Provider) (fs fs' : FS)
    (wallet_id to_address amount asset : String) :
    (mkTransferPayload wallet_id to_address amount asset).transfer_type = "GASLESS"
    ∧ (mkTransferPayload wallet_id to_address amount asset).wallet_id = wallet_id
    ∧ (mkTransferPayload wallet_id to_address amount asset).toAddr = to_address
    ∧ (mkTransferPayload wallet_id to_address amount asset).amount = amount
    ∧ (mkTransferPayload wallet_id to_address amount asset).asset = asset
    ∧ defaultAsset = "USDC"
    ∧ execute_gasless_transaction_default p fs wallet_id to_address amount
        = execute_gasless_transaction p fs wallet_id to_address amount "USDC"
    ∧ ({ wallet_id := wallet_id, to_address := to_address, amount := amount } :
          GaslessTransactionRequest).asset = some "USDC"
    ∧ (execute_gasless_transaction p fs wallet_id to_address amount asset).result
        = (execute_gasless_transaction p fs' wallet_id to_address amount asset).result
    ∧ (execute_gasless_transaction p fs wallet_id to_address amount asset).events
        = (execute_gasless_transaction p fs' wallet_id to_address amount asset).events :=
  ⟨rfl, rfl, rfl, rfl, rfl, rfl, rfl, rfl, rfl, rfl⟩

end MPCWallet
